import Mathlib

/-!
Verification of the locksmith reboot-coordination daemon.

This file shallowly embeds the core control logic of
`src/locksmithctl/daemon.go` (package `main` of `locksmithctl`):
the exponential backoff policy (`expBackoff`), the systemd liveness
probe (`etcdActive`), the strategy resolver (`useLock` on `rebooter`),
the pre-reboot notification step (`rebootAndSleep`), the lock-acquire
retry loop (`lockAndReboot`), the stale-lock cleanup (`unlockIfHeld`,
`unlockHeldLocks`), the executor (`reboot`) and the configuration /
startup phase of `runDaemon`.

Go durations are modelled as `Int` nanoseconds.  External collaborators
(the systemd dbus connection, the etcd client, the lock store, the
update-engine and login1 connections, and the utmp broadcast) are
modelled by their observable outcomes, supplied as explicit inputs:
each Go function that consults a collaborator becomes a Lean function
of a record holding those outcomes.  Side effects that the control flow
depends on (acquire calls, sleeps, the reboot request, the final
failure print) are recorded in explicit event traces.
-/

namespace Locksmith

/-- Go `time.Second` in nanoseconds. -/
def second : Int := 1000000000

/-- Go `time.Minute` in nanoseconds. -/
def minute : Int := 60 * second

/-- Go `time.Hour` in nanoseconds. -/
def hour : Int := 60 * minute

/-- `initialInterval = time.Second * 5` from daemon.go. -/
def initialInterval : Int := 5 * second

/-- `maxInterval = time.Minute * 5` from daemon.go. -/
def maxInterval : Int := 5 * minute

/-- `loginsRebootDelay = time.Minute * 5` from daemon.go. -/
def loginsRebootDelay : Int := 5 * minute

/-- `StrategyReboot = "reboot"` from daemon.go. -/
def StrategyReboot : String := "reboot"

/-- `StrategyEtcdLock = "etcd-lock"` from daemon.go. -/
def StrategyEtcdLock : String := "etcd-lock"

/-- `StrategyBestEffort = "best-effort"` from daemon.go. -/
def StrategyBestEffort : String := "best-effort"

/-- `StrategyOff = "off"` from daemon.go. -/
def StrategyOff : String := "off"

/-- `etcdServices` from daemon.go: the fixed ordered list of well-known
systemd unit names that the liveness probe inspects. -/
def etcdServices : List String := ["etcd.service", "etcd2.service"]

/-- Outcomes of the external lock store's `Lock`/`Unlock` calls, as the
daemon distinguishes them: `errExist` is `lock.ErrExist` (already held),
`errNotExist` is `lock.ErrNotExist` (nothing held), `other` is any other
error.  `none : Option LockErr` stands for a nil error (success). -/
inductive LockErr where
  | errExist
  | errNotExist
  | other (msg : String)
deriving DecidableEq, Repr

/-- Observable state of the systemd side of the world for one probe:
the result of `dbus.New()` (`dbusErr = some e` means it failed with `e`)
and, for each unit name, the result of
`sys.GetUnitProperty(service, "ActiveState")` (`Except.ok v` yields the
property value string `v`, `Except.error e` is a query failure). -/
structure SystemdState where
  dbusErr : Option String
  unitProp : String → Except String String

/-- The `for _, service := range etcdServices` loop body of `etcdActive`,
threading the mutable `(active, name)` pair.  A failed property query is
skipped (`continue`).  A value of `"inactive"` is skipped.  Any other
value sets `active = true` and `name = service`; the Go `break` there
terminates only the `switch`, not the loop, so iteration continues with
the remaining services. -/
def etcdActiveLoop (q : String → Except String String) :
    List String → Bool × String → Bool × String
  | [], acc => acc
  | service :: rest, acc =>
    match q service with
    | Except.error _ => etcdActiveLoop q rest acc
    | Except.ok prop =>
      if prop = "inactive" then etcdActiveLoop q rest acc
      else etcdActiveLoop q rest (true, service)

/-- The `(active, name, err)` triple returned by `etcdActive`. -/
structure ProbeResult where
  active : Bool
  name : String
  err : Option String
deriving DecidableEq, Repr

/-- `etcdActive` from daemon.go: returns `(false, "", err)` when the
dbus connection cannot be created, otherwise folds the service list and
returns a nil error. -/
def etcdActive (sys : SystemdState) : ProbeResult :=
  match sys.dbusErr with
  | some e => { active := false, name := "", err := some e }
  | none =>
    let r := etcdActiveLoop sys.unitProp etcdServices (false, "")
    { active := r.1, name := r.2, err := none }

/-- Errors `useLock` can return: a propagated probe error, or the
`Unknown strategy` error from the default switch branch. -/
inductive UseLockErr where
  | probe (msg : String)
  | unknownStrategy (strategy : String)
deriving DecidableEq, Repr

/-- `(r rebooter) useLock()` from daemon.go.  The `rebooter`'s login1
handle plays no role here, so the receiver is represented by its
`strategy` string; the probe's environment is passed explicitly. -/
def useLock (strategy : String) (sys : SystemdState) :
    Bool × Option UseLockErr :=
  if strategy = StrategyBestEffort then
    let p := etcdActive sys
    match p.err with
    | some e => (false, some (UseLockErr.probe e))
    | none => (p.active, none)
  else if strategy = StrategyEtcdLock then (true, none)
  else if strategy = StrategyReboot then (false, none)
  else (false, some (UseLockErr.unknownStrategy strategy))

/-- Two's-complement wrap into the `int64` range, as Go arithmetic on
`time.Duration` (an `int64`) behaves on overflow.  The numerals are
2^63 and 2^64. -/
def wrap64 (x : Int) : Int :=
  (x + 9223372036854775808) % 18446744073709551616 - 9223372036854775808

/-- `expBackoff` from daemon.go: double the interval — `int64`
multiplication, which wraps on overflow — then cap at `maxInterval`. -/
def expBackoff (interval : Int) : Int :=
  let interval := wrap64 (interval * 2)
  if interval > maxInterval then maxInterval else interval

/-- Events recorded by the executor's trace: a `lck.Lock()` call, the
`broadcast` call, a `time.Sleep(d)`, the `lgn.Reboot(false)` request,
and the final `Error: reboot attempt never finished` print. -/
inductive Event where
  | acquireCall
  | broadcastCall
  | sleep (d : Int)
  | rebootCall
  | printRebootFailed
deriving DecidableEq, Repr

/-- Number of occurrences of event `e` in a trace. -/
def countEvent (e : Event) : List Event → Nat
  | [] => 0
  | x :: xs => (if x = e then 1 else 0) + countEvent e xs

/-- `rebootAndSleep` from daemon.go, as the trace it produces given the
number of utmp lines the broadcast reached: broadcast, then — only if
some lines were reached — sleep `loginsRebootDelay`, then issue the
reboot request and sleep for a week. -/
def rebootAndSleep (lines : Nat) : List Event :=
  Event.broadcastCall ::
    (if lines ≠ 0 then [Event.sleep loginsRebootDelay] else []) ++
      [Event.rebootCall, Event.sleep (24 * 7 * hour)]

/-- `(r rebooter) lockAndReboot(lck)` from daemon.go, driven by a finite
schedule of `lck.Lock()` outcomes (`none` = success).  An outcome that
is neither success nor `lock.ErrExist` backs off, sleeps the new
interval and retries; otherwise the loop calls `rebootAndSleep` and
returns.  The second component records whether the loop returned within
the schedule; on an exhausted schedule it is still looping (`false`). -/
def lockAndReboot (lines : Nat) :
    List (Option LockErr) → Int → List Event × Bool
  | [], _ => ([], false)
  | o :: rest, interval =>
    if o = none ∨ o = some LockErr.errExist then
      (Event.acquireCall :: rebootAndSleep lines, true)
    else
      let next := expBackoff interval
      let r := lockAndReboot lines rest next
      (Event.acquireCall :: Event.sleep next :: r.1, r.2)

/-- `setupLock` from daemon.go: fails when `getClient()` fails or when
the machine id is empty; `some msg` is the error, `none` is success. -/
def setupLock (clientErr : Option String) (machineID : String) :
    Option String :=
  match clientErr with
  | some e => some ("Error initializing etcd client: " ++ e)
  | none => if machineID = "" then some "Cannot read machine-id" else none

/-- `unlockIfHeld` from daemon.go, as a function of the `lck.Unlock()`
outcome: `lock.ErrNotExist` and success both map to a nil error, any
other error is returned. -/
def unlockIfHeld (outcome : Option LockErr) : Option LockErr :=
  match outcome with
  | some LockErr.errNotExist => none
  | none => none
  | e => e

/-- The collaborator outcomes one timer-fired iteration of
`unlockHeldLocks` can observe: the systemd probe state, the
`getClient()` outcome (`some e` = unreachable), the machine id read, and
the `lck.Unlock()` outcome reached through `unlockIfHeld`. -/
structure ReaperEnv where
  sys : SystemdState
  clientErr : Option String
  machineID : String
  unlockOutcome : Option LockErr

/-- The reasons a reaper iteration defers, mirroring the `reason`
strings assigned in `unlockHeldLocks`. -/
inductive DeferReason where
  | probeError
  | inactiveAndUnreachable
  | lockSetup (msg : String)
  | unlockError (e : LockErr)
deriving DecidableEq, Repr

/-- Result of one reaper iteration: the task returns (`stop`) or records
a reason and loops (`deferred`). -/
inductive ReaperStep where
  | stop
  | deferred (reason : DeferReason)
deriving DecidableEq, Repr

/-- The `case <-time.After(interval):` body of `unlockHeldLocks` from
daemon.go.  Returns the step outcome together with whether a
`release()` (`lck.Unlock()` via `unlockIfHeld`) was attempted in this
iteration.  Control flow, in source order: a probe error defers; an
inactive service whose remote cluster is unreachable defers; a failed
lock setup defers; otherwise release is attempted and a nil result from
`unlockIfHeld` stops the task while any other error defers. -/
def reaperIteration (env : ReaperEnv) : ReaperStep × Bool :=
  let p := etcdActive env.sys
  if p.err.isSome then (ReaperStep.deferred DeferReason.probeError, false)
  else if p.active = false ∧ env.clientErr.isSome = true then
    (ReaperStep.deferred DeferReason.inactiveAndUnreachable, false)
  else
    match setupLock env.clientErr env.machineID with
    | some e => (ReaperStep.deferred (DeferReason.lockSetup e), false)
    | none =>
      match unlockIfHeld env.unlockOutcome with
      | none => (ReaperStep.stop, true)
      | some e => (ReaperStep.deferred (DeferReason.unlockError e), true)

/-- The `unlockHeldLocks` loop from daemon.go driven by a finite
schedule of per-iteration environments (one per timer firing; no stop
signal is delivered).  Returns how many iterations attempted a release
and whether the task returned within the schedule.  A deferred
iteration applies `expBackoff` to the interval before looping, as in
the source. -/
def reaperLoop : List ReaperEnv → Int → Nat × Bool
  | [], _ => (0, false)
  | env :: rest, interval =>
    let r := reaperIteration env
    let a := if r.2 then 1 else 0
    match r.1 with
    | ReaperStep.stop => (a, true)
    | ReaperStep.deferred _ =>
      let r2 := reaperLoop rest (expBackoff interval)
      (a + r2.1, r2.2)

/-- Collaborator outcomes for one run of `(r rebooter) reboot()`: the
probe state consulted by `useLock`, the `setupLock` inputs, the
`lck.Unlock()` outcome of the pre-loop `unlockIfHeld`, the schedule of
`lck.Lock()` outcomes for `lockAndReboot`, and the utmp line count each
`broadcast` reaches. -/
structure RebootEnv where
  sys : SystemdState
  clientErr : Option String
  machineID : String
  preUnlockOutcome : Option LockErr
  acquireOutcomes : List (Option LockErr)
  lines : Nat

/-- `(r rebooter) reboot()` from daemon.go: trace of events plus the
returned exit code (`none` when the lock-acquire loop is still running
at the end of the schedule).  On a `useLock` error, a failed lock setup
or a failed pre-loop unlock it returns 1 at once; when a lock is used
and acquired, `lockAndReboot` runs `rebootAndSleep` once, and then the
function unconditionally runs `rebootAndSleep` again, prints the
failure message and returns 1. -/
def reboot (strategy : String) (env : RebootEnv) :
    List Event × Option Nat :=
  let u := useLock strategy env.sys
  match u.2 with
  | some _ => ([], some 1)
  | none =>
    if u.1 then
      match setupLock env.clientErr env.machineID with
      | some _ => ([], some 1)
      | none =>
        match unlockIfHeld env.preUnlockOutcome with
        | some _ => ([], some 1)
        | none =>
          let r := lockAndReboot env.lines env.acquireOutcomes initialInterval
          if r.2 then
            (r.1 ++ rebootAndSleep env.lines ++ [Event.printRebootFailed],
             some 1)
          else (r.1, none)
    else (rebootAndSleep env.lines ++ [Event.printRebootFailed], some 1)

/-- Inputs of the configuration and startup phase of `runDaemon`: the
raw environment variable values (`""` = unset), whether
`timeutil.ParsePeriodic` succeeds on the window strings, and whether
the `updateengine.New()`, `login1.New()` and `ue.GetStatus()`
collaborator calls succeed. -/
structure DaemonEnv where
  strategyEnv : String
  startw : String
  lengthw : String
  parseOk : Bool
  ueConnOk : Bool
  lgnConnOk : Bool
  statusOk : Bool

/-- Collaborator interactions recorded by the startup phase. -/
inductive DaemonEvent where
  | connectUpdateEngine
  | connectLogin1
  | startReaper
deriving DecidableEq, Repr

/-- Outcome of the startup phase: an exit code, or the hand-off to the
wait/reboot logic with whether a reboot window was configured and the
effective strategy. -/
inductive DaemonOutcome where
  | exit (code : Nat)
  | proceed (hasPeriod : Bool) (strategy : String)
deriving DecidableEq, Repr

/-- The strategy after defaulting: an empty `REBOOT_STRATEGY` becomes
`StrategyBestEffort`, as in `runDaemon`. -/
def effectiveStrategy (env : DaemonEnv) : String :=
  if env.strategyEnv = "" then StrategyBestEffort else env.strategyEnv

/-- The configuration and startup phase of `runDaemon` from daemon.go,
through the point where the daemon is waiting on update-engine status.
In source order: strategy `off` exits 0; a window configuration with
exactly one of the two variables set exits 1; a set window that fails
to parse exits 1; a failed update-engine connection exits 1; a failed
login1 connection exits 1; the reaper is started unless the strategy is
`reboot`; a failed `GetStatus` exits 1; otherwise the daemon proceeds,
with a reboot window iff both window variables were set. -/
def runDaemon (env : DaemonEnv) : List DaemonEvent × DaemonOutcome :=
  if effectiveStrategy env = StrategyOff then ([], DaemonOutcome.exit 0)
  else if (env.startw == "") != (env.lengthw == "") then
    ([], DaemonOutcome.exit 1)
  else if env.startw ≠ "" ∧ env.lengthw ≠ "" ∧ env.parseOk = false then
    ([], DaemonOutcome.exit 1)
  else if env.ueConnOk = false then
    ([DaemonEvent.connectUpdateEngine], DaemonOutcome.exit 1)
  else if env.lgnConnOk = false then
    ([DaemonEvent.connectUpdateEngine, DaemonEvent.connectLogin1],
     DaemonOutcome.exit 1)
  else
    let evts := [DaemonEvent.connectUpdateEngine, DaemonEvent.connectLogin1] ++
      (if effectiveStrategy env ≠ StrategyReboot then [DaemonEvent.startReaper]
       else [])
    if env.statusOk = false then (evts, DaemonOutcome.exit 1)
    else
      (evts,
       DaemonOutcome.proceed (env.startw != "" && env.lengthw != "")
         (effectiveStrategy env))

/-- Probe state with both etcd units reporting `active`. -/
def sysBothActive : SystemdState :=
  { dbusErr := none, unitProp := fun _ => Except.ok "active" }

/-- Probe state where only the first listed unit is active. -/
def sysOneActive : SystemdState :=
  { dbusErr := none,
    unitProp := fun s =>
      if s = "etcd.service" then Except.ok "active"
      else Except.ok "inactive" }

/-- Probe state where every per-unit property query fails. -/
def sysAllErr : SystemdState :=
  { dbusErr := none, unitProp := fun _ => Except.error "query failed" }

/-- Reaper iteration environment with the service active, the store
reachable and a lock that release reports as successfully removed. -/
def envC1cex : ReaperEnv :=
  { sys := sysBothActive, clientErr := none, machineID := "machine-a",
    unlockOutcome := none }

/-- Reaper iteration environment with the service active and a release
that fails with a transient error. -/
def envC1w : ReaperEnv :=
  { sys := sysBothActive, clientErr := none, machineID := "machine-b",
    unlockOutcome := some (LockErr.other "network timeout") }

/-- Reaper iteration environment in which no lock is held: release
reports `lock.ErrNotExist`. -/
def envC6w : ReaperEnv :=
  { sys := sysBothActive, clientErr := none, machineID := "machine-c",
    unlockOutcome := some LockErr.errNotExist }

/-- An acquire schedule that fails twice and then succeeds. -/
def c2fails : List (Option LockErr) :=
  [some (LockErr.other "lock attempt failed"),
   some (LockErr.other "lock attempt failed again")]

/-- Executor environment for the etcd-lock strategy: lock setup works,
nothing was previously held, acquisition succeeds at once, and the
broadcast reaches no terminal lines. -/
def envC9w : RebootEnv :=
  { sys := sysBothActive, clientErr := none, machineID := "machine-d",
    preUnlockOutcome := some LockErr.errNotExist, acquireOutcomes := [none],
    lines := 0 }

/-- Daemon environment: strategy `off` together with a window
configuration that sets only `REBOOT_WINDOW_START`. -/
def envC8cex : DaemonEnv :=
  { strategyEnv := StrategyOff, startw := "01:00", lengthw := "",
    parseOk := true, ueConnOk := true, lgnConnOk := true, statusOk := true }

/-- Daemon environment: default strategy with only `REBOOT_WINDOW_START`
set. -/
def envC8w : DaemonEnv :=
  { strategyEnv := "", startw := "01:00", lengthw := "",
    parseOk := true, ueConnOk := true, lgnConnOk := true, statusOk := true }

lemma rebootAndSleep_eq (lines : Nat) :
    rebootAndSleep lines =
      if lines ≠ 0 then
        [Event.broadcastCall, Event.sleep loginsRebootDelay,
         Event.rebootCall, Event.sleep (24 * 7 * hour)]
      else
        [Event.broadcastCall, Event.rebootCall,
         Event.sleep (24 * 7 * hour)] := by
  by_cases h : lines ≠ 0 <;> simp [rebootAndSleep, h]

lemma countEvent_cons (e x : Event) (xs : List Event) :
    countEvent e (x :: xs) = (if x = e then 1 else 0) + countEvent e xs := rfl

lemma countEvent_append (e : Event) (l1 l2 : List Event) :
    countEvent e (l1 ++ l2) = countEvent e l1 + countEvent e l2 := by
  induction l1 with
  | nil => simp [countEvent]
  | cons x xs ih => simp [countEvent, ih, Nat.add_assoc]

lemma rebootAndSleep_count_acquire (lines : Nat) :
    countEvent Event.acquireCall (rebootAndSleep lines) = 0 := by
  rw [rebootAndSleep_eq]
  by_cases h : lines ≠ 0
  · rw [if_pos h]; decide
  · rw [if_neg h]; decide

lemma rebootAndSleep_count_reboot (lines : Nat) :
    countEvent Event.rebootCall (rebootAndSleep lines) = 1 := by
  rw [rebootAndSleep_eq]
  by_cases h : lines ≠ 0
  · rw [if_pos h]; decide
  · rw [if_neg h]; decide

lemma rebootAndSleep_mem_reboot (lines : Nat) :
    Event.rebootCall ∈ rebootAndSleep lines := by
  rw [rebootAndSleep_eq]
  by_cases h : lines ≠ 0
  · rw [if_pos h]; decide
  · rw [if_neg h]; decide

lemma lockAndReboot_proceed (lines : Nat) (o : Option LockErr)
    (rest : List (Option LockErr)) (i : Int)
    (ho : o = none ∨ o = some LockErr.errExist) :
    lockAndReboot lines (o :: rest) i =
      (Event.acquireCall :: rebootAndSleep lines, true) := by
  simp [lockAndReboot, ho]

lemma lockAndReboot_retry (lines : Nat) (x : Option LockErr)
    (rest : List (Option LockErr)) (i : Int)
    (hx1 : x ≠ none) (hx2 : x ≠ some LockErr.errExist) :
    lockAndReboot lines (x :: rest) i =
      (Event.acquireCall :: Event.sleep (expBackoff i) ::
         (lockAndReboot lines rest (expBackoff i)).1,
       (lockAndReboot lines rest (expBackoff i)).2) := by
  have hcond : ¬(x = none ∨ x = some LockErr.errExist) := by
    rintro (h | h)
    · exact hx1 h
    · exact hx2 h
  simp [lockAndReboot, hcond]

lemma lockAndReboot_succeeds (lines : Nat) (o : Option LockErr)
    (ho : o = none ∨ o = some LockErr.errExist) :
    ∀ (fails : List (Option LockErr)) (i : Int),
      (∀ x ∈ fails, x ≠ none ∧ x ≠ some LockErr.errExist) →
      (lockAndReboot lines (fails ++ [o]) i).2 = true ∧
      countEvent Event.acquireCall
          (lockAndReboot lines (fails ++ [o]) i).1 = fails.length + 1 ∧
      Event.rebootCall ∈ (lockAndReboot lines (fails ++ [o]) i).1 := by
  intro fails
  induction fails with
  | nil =>
    intro i _
    rw [List.nil_append, lockAndReboot_proceed lines o [] i ho]
    refine ⟨rfl, ?_, ?_⟩
    · rw [countEvent_cons, rebootAndSleep_count_acquire, if_pos rfl,
        List.length_nil]
    · exact List.mem_cons_of_mem _ (rebootAndSleep_mem_reboot lines)
  | cons x rest ih =>
    intro i hf
    have hx := hf x (List.mem_cons_self x rest)
    rw [List.cons_append,
      lockAndReboot_retry lines x (rest ++ [o]) i hx.1 hx.2]
    have hr := ih (expBackoff i) (fun y hy => hf y (List.mem_cons_of_mem x hy))
    refine ⟨hr.1, ?_, ?_⟩
    · rw [countEvent_cons, countEvent_cons, hr.2.1, if_pos rfl,
        if_neg (fun hh => Event.noConfusion hh), List.length_cons]
      omega
    · exact List.mem_cons_of_mem _ (List.mem_cons_of_mem _ hr.2.2)

lemma lockAndReboot_count_reboot (lines : Nat) :
    ∀ (sched : List (Option LockErr)) (i : Int),
      (lockAndReboot lines sched i).2 = true →
      countEvent Event.rebootCall (lockAndReboot lines sched i).1 = 1 := by
  intro sched
  induction sched with
  | nil => intro i h; simp [lockAndReboot] at h
  | cons o rest ih =>
    intro i h
    by_cases ho : o = none ∨ o = some LockErr.errExist
    · rw [lockAndReboot_proceed lines o rest i ho, countEvent_cons,
        rebootAndSleep_count_reboot, if_neg (fun hh => Event.noConfusion hh)]
    · push_neg at ho
      rw [lockAndReboot_retry lines o rest i ho.1 ho.2] at h ⊢
      rw [countEvent_cons, countEvent_cons, ih (expBackoff i) h,
        if_neg (fun hh => Event.noConfusion hh),
        if_neg (fun hh => Event.noConfusion hh)]

/-- Claim C5 as stated is false on the code: the doubling is `int64`
arithmetic, which wraps.  At `i = 2^62` nanoseconds — a representable
`time.Duration` of about 146 years, and well above `maxInterval` — the
doubling wraps to `-2^63`, which is below the ceiling and is returned
unchanged, so the result is neither `min(2*i, maxInterval)` nor
`maxInterval`.  The numerals are 2^62 and -2^63. -/
theorem C5_backoff_counterexample :
    maxInterval ≤ (4611686018427387904 : Int) ∧
    expBackoff 4611686018427387904 = -9223372036854775808 ∧
    expBackoff 4611686018427387904 ≠
      min (2 * 4611686018427387904) maxInterval ∧
    expBackoff 4611686018427387904 ≠ maxInterval := by decide

/-- Claim C5, amended: in general the backoff policy satisfies
`next(i) = min(wrap64(2*i), maxInterval)`, and for every duration `i`
whose doubling stays within `int64` (`-2^62 ≤ i ≤ 2^62 - 1`, the
numerals below) it satisfies `next(i) = min(2*i, maxInterval)`; in
particular for `maxInterval ≤ i` in that range, `next(i) = maxInterval`
(the ceiling is idempotent there), and the function is total. -/
theorem C5_backoff (i : Int)
    (hlo : -4611686018427387904 ≤ i) (hhi : i ≤ 4611686018427387903) :
    (∀ j : Int, expBackoff j = min (wrap64 (j * 2)) maxInterval) ∧
    expBackoff i = min (2 * i) maxInterval ∧
    (maxInterval ≤ i → expBackoff i = maxInterval) := by
  have hgen : ∀ j : Int, expBackoff j = min (wrap64 (j * 2)) maxInterval := by
    intro j
    simp only [expBackoff]
    rw [min_def]
    simp only [maxInterval, minute, second]
    split <;> split <;> omega
  have hw : wrap64 (i * 2) = i * 2 := by
    simp only [wrap64]
    omega
  have h2 : expBackoff i = min (2 * i) maxInterval := by
    rw [hgen i, hw, mul_comm]
  refine ⟨hgen, h2, fun hm => ?_⟩
  rw [h2, min_def]
  simp only [maxInterval, minute, second] at hm ⊢
  split <;> omega

/-- Witness for the amended C5 at a concrete interval above the ceiling
whose doubling does not overflow. -/
theorem C5_backoff_witness : expBackoff (6 * minute) = maxInterval :=
  (C5_backoff (6 * minute) (by decide) (by decide)).2.2 (by decide)

/-- Claim C7: if the broadcast reached zero terminal lines, the fixed
five-minute pre-reboot delay is skipped entirely and the reboot request
is issued immediately; if it reached one or more lines, the executor
sleeps exactly the five-minute delay before issuing the reboot
request. -/
theorem C7_notify_delay (lines : Nat) :
    (lines = 0 →
       rebootAndSleep lines =
         [Event.broadcastCall, Event.rebootCall,
          Event.sleep (24 * 7 * hour)]) ∧
    (lines ≠ 0 →
       rebootAndSleep lines =
         [Event.broadcastCall, Event.sleep loginsRebootDelay,
          Event.rebootCall, Event.sleep (24 * 7 * hour)]) := by
  rw [rebootAndSleep_eq]
  constructor <;> intro h <;> simp [h]

/-- Witness for C7 at zero lines and at two lines. -/
theorem C7_notify_delay_witness :
    rebootAndSleep 0 =
      [Event.broadcastCall, Event.rebootCall,
       Event.sleep (24 * 7 * hour)] ∧
    rebootAndSleep 2 =
      [Event.broadcastCall, Event.sleep loginsRebootDelay,
       Event.rebootCall, Event.sleep (24 * 7 * hour)] :=
  ⟨(C7_notify_delay 0).1 rfl, (C7_notify_delay 2).2 (by decide)⟩

/-- Claim C3 fails on the code: with both `etcd.service` and
`etcd2.service` reporting `ActiveState = "active"`, the probe returns
the name `etcd2.service`, not the first active service in list order —
the `break` in the Go `switch` terminates only the switch, so the loop
keeps scanning and the last active hit overwrites `name`. -/
theorem C3_probe_last_hit_bug :
    sysBothActive.unitProp "etcd.service" = Except.ok "active" ∧
    etcdActive sysBothActive =
      { active := true, name := "etcd2.service", err := none } :=
  ⟨rfl, rfl⟩

/-- Claim C2: in the executor's locking loop an outcome of success or
`AlreadyHeld` proceeds to the notify/reboot phase, and any other
failure applies the backoff policy, sleeps and retries with no upper
bound; in particular a schedule of failures followed by a success is
fully consumed, calling acquire once per failure plus once for the
success and reaching the reboot request. -/
theorem C2_executor_retry (lines : Nat) (i : Int)
    (fails : List (Option LockErr)) (o : Option LockErr)
    (hf : ∀ x ∈ fails, x ≠ none ∧ x ≠ some LockErr.errExist)
    (ho : o = none ∨ o = some LockErr.errExist) :
    (∀ (x : Option LockErr) (rest : List (Option LockErr)),
       x ≠ none → x ≠ some LockErr.errExist →
       lockAndReboot lines (x :: rest) i =
         (Event.acquireCall :: Event.sleep (expBackoff i) ::
            (lockAndReboot lines rest (expBackoff i)).1,
          (lockAndReboot lines rest (expBackoff i)).2)) ∧
    (∀ rest : List (Option LockErr),
       lockAndReboot lines (o :: rest) i =
         (Event.acquireCall :: rebootAndSleep lines, true)) ∧
    ((lockAndReboot lines (fails ++ [o]) i).2 = true ∧
       countEvent Event.acquireCall
           (lockAndReboot lines (fails ++ [o]) i).1 = fails.length + 1 ∧
       Event.rebootCall ∈ (lockAndReboot lines (fails ++ [o]) i).1) := by
  refine ⟨?_, ?_, ?_⟩
  · intro x rest hx1 hx2
    exact lockAndReboot_retry lines x rest i hx1 hx2
  · intro rest
    exact lockAndReboot_proceed lines o rest i ho
  · exact lockAndReboot_succeeds lines o ho fails i hf

/-- Witness for C2: two failures then a success call acquire exactly
three times and reach the reboot request. -/
theorem C2_executor_retry_witness :
    (lockAndReboot 0 (c2fails ++ [none]) initialInterval).2 = true ∧
    countEvent Event.acquireCall
        (lockAndReboot 0 (c2fails ++ [none]) initialInterval).1 = 3 ∧
    Event.rebootCall ∈ (lockAndReboot 0 (c2fails ++ [none]) initialInterval).1 := by
  have h := (C2_executor_retry 0 initialInterval c2fails none
    (by decide) (Or.inl rfl)).2.2
  simpa [c2fails] using h

lemma etcdActive_err (sys : SystemdState) :
    (etcdActive sys).err = sys.dbusErr := by
  cases h : sys.dbusErr <;> simp [etcdActive, h]

lemma etcdActive_active (sys : SystemdState) (h : sys.dbusErr = none) :
    (etcdActive sys).active =
      (etcdActiveLoop sys.unitProp etcdServices (false, "")).1 := by
  simp [etcdActive, h]

lemma etcdActiveLoop_skip (q : String → Except String String) (s : String)
    (e : String) (rest : List String) (acc : Bool × String)
    (h : q s = Except.error e) :
    etcdActiveLoop q (s :: rest) acc = etcdActiveLoop q rest acc := by
  simp [etcdActiveLoop, h]

lemma etcdActiveLoop_active_iff (q : String → Except String String) :
    ∀ (l : List String) (acc : Bool × String),
      ((etcdActiveLoop q l acc).1 = true ↔
        acc.1 = true ∨ ∃ s ∈ l, ∃ v, q s = Except.ok v ∧ v ≠ "inactive") := by
  intro l
  induction l with
  | nil => intro acc; simp [etcdActiveLoop]
  | cons s rest ih =>
    intro acc
    cases hq : q s with
    | error e =>
      rw [etcdActiveLoop_skip q s e rest acc hq, ih acc]
      constructor
      · rintro (h | ⟨x, hx, hp⟩)
        · exact Or.inl h
        · exact Or.inr ⟨x, List.mem_cons_of_mem s hx, hp⟩
      · rintro (h | ⟨x, hx, hp⟩)
        · exact Or.inl h
        · rcases List.mem_cons.mp hx with hx1 | hx2
          · obtain ⟨v, hv, _⟩ := hp
            rw [hx1, hq] at hv
            cases hv
          · exact Or.inr ⟨x, hx2, hp⟩
    | ok v =>
      by_cases hv : v = "inactive"
      · have hstep : etcdActiveLoop q (s :: rest) acc = etcdActiveLoop q rest acc := by
          simp [etcdActiveLoop, hq, hv]
        rw [hstep, ih acc]
        constructor
        · rintro (h | ⟨x, hx, hp⟩)
          · exact Or.inl h
          · exact Or.inr ⟨x, List.mem_cons_of_mem s hx, hp⟩
        · rintro (h | ⟨x, hx, hp⟩)
          · exact Or.inl h
          · rcases List.mem_cons.mp hx with hx1 | hx2
            · obtain ⟨w, hw, hwne⟩ := hp
              rw [hx1, hq] at hw
              cases hw
              exact absurd hv hwne
            · exact Or.inr ⟨x, hx2, hp⟩
      · have hstep : etcdActiveLoop q (s :: rest) acc =
            etcdActiveLoop q rest (true, s) := by
          simp [etcdActiveLoop, hq, hv]
        rw [hstep, ih (true, s)]
        constructor
        · intro _
          exact Or.inr ⟨s, List.mem_cons_self s rest, v, hq, hv⟩
        · intro _
          exact Or.inl rfl

/-- Claim C4: `useLock` returns `(false, nil)` unconditionally for
strategy `Reboot` and `(true, nil)` unconditionally for `EtcdLock`; for
`BestEffort` it propagates a probe error, and otherwise returns
`(true, nil)` iff some monitored service reports an `ActiveState` other
than `inactive`, else `(false, nil)`; any other strategy yields the
unknown-strategy error. -/
theorem C4_lock_gate (strategy : String) (sys : SystemdState) :
    useLock StrategyReboot sys = (false, none) ∧
    useLock StrategyEtcdLock sys = (true, none) ∧
    (∀ e, (etcdActive sys).err = some e →
       useLock StrategyBestEffort sys = (false, some (UseLockErr.probe e))) ∧
    ((etcdActive sys).err = none →
       useLock StrategyBestEffort sys = ((etcdActive sys).active, none)) ∧
    ((etcdActive sys).err = none →
       ((etcdActive sys).active = true ↔
         ∃ s ∈ etcdServices, ∃ v,
           sys.unitProp s = Except.ok v ∧ v ≠ "inactive")) ∧
    (strategy ≠ StrategyBestEffort → strategy ≠ StrategyEtcdLock →
       strategy ≠ StrategyReboot →
       useLock strategy sys =
         (false, some (UseLockErr.unknownStrategy strategy))) := by
  refine ⟨?_, ?_, ?_, ?_, ?_, ?_⟩
  · rw [useLock, if_neg (by decide), if_neg (by decide), if_pos rfl]
  · rw [useLock, if_neg (by decide), if_pos rfl]
  · intro e he
    rw [useLock, if_pos rfl]
    simp only [he]
  · intro he
    rw [useLock, if_pos rfl]
    simp only [he]
  · intro he
    have hd : sys.dbusErr = none := by rw [← etcdActive_err sys, he]
    rw [etcdActive_active sys hd]
    have := etcdActiveLoop_active_iff sys.unitProp etcdServices (false, "")
    rw [this]
    simp
  · intro h1 h2 h3
    rw [useLock, if_neg h1, if_neg h2, if_neg h3]

/-- Witness for C4 at a state with one active service and at the
concrete unknown strategy string `bogus`. -/
theorem C4_lock_gate_witness :
    useLock StrategyReboot sysOneActive = (false, none) ∧
    useLock StrategyEtcdLock sysOneActive = (true, none) ∧
    useLock StrategyBestEffort sysOneActive = (true, none) ∧
    useLock "bogus" sysOneActive =
      (false, some (UseLockErr.unknownStrategy "bogus")) := by
  have h := C4_lock_gate "bogus" sysOneActive
  refine ⟨h.1, h.2.1, ?_,
    h.2.2.2.2.2 (by decide) (by decide) (by decide)⟩
  have h4 := h.2.2.2.1 rfl
  rw [h4]
  rfl

/-- Claim C10: the probe's returned error coincides with the dbus
connection error (so it is non-nil only when the system bus connection
fails); a failed per-service property query is skipped; and when every
per-service query fails the probe returns inactive with a nil error,
upon which strategy `BestEffort` proceeds without a lock. -/
theorem C10_probe_errors (sys : SystemdState) :
    ((etcdActive sys).err = sys.dbusErr) ∧
    (∀ (q : String → Except String String) (s e : String)
       (rest : List String) (acc : Bool × String),
       q s = Except.error e →
       etcdActiveLoop q (s :: rest) acc = etcdActiveLoop q rest acc) ∧
    (sys.dbusErr = none →
       (∀ s ∈ etcdServices, ∃ e, sys.unitProp s = Except.error e) →
       etcdActive sys = { active := false, name := "", err := none } ∧
       useLock StrategyBestEffort sys = (false, none)) := by
  refine ⟨etcdActive_err sys, etcdActiveLoop_skip, ?_⟩
  intro hd hall
  obtain ⟨e1, h1⟩ := hall "etcd.service" (by simp [etcdServices])
  obtain ⟨e2, h2⟩ := hall "etcd2.service" (by simp [etcdServices])
  have hloop : etcdActiveLoop sys.unitProp etcdServices (false, "") =
      (false, "") := by
    show etcdActiveLoop sys.unitProp
      ("etcd.service" :: ["etcd2.service"]) (false, "") = (false, "")
    rw [etcdActiveLoop_skip sys.unitProp "etcd.service" e1 _ _ h1,
      etcdActiveLoop_skip sys.unitProp "etcd2.service" e2 _ _ h2]
    rfl
  have hact : etcdActive sys = { active := false, name := "", err := none } := by
    simp [etcdActive, hd, hloop]
  refine ⟨hact, ?_⟩
  rw [useLock, if_pos rfl]
  simp only [hact]

/-- Witness for C10 at a probe state where both property queries
fail. -/
theorem C10_probe_errors_witness :
    etcdActive sysAllErr = { active := false, name := "", err := none } ∧
    useLock StrategyBestEffort sysAllErr = (false, none) :=
  (C10_probe_errors sysAllErr).2.2 rfl
    (fun _ _ => ⟨"query failed", rfl⟩)

lemma setupLock_none_clientErr {c : Option String} {m : String}
    (h : setupLock c m = none) : c = none := by
  cases c with
  | none => rfl
  | some e => simp [setupLock] at h

lemma unlockIfHeld_some {e : LockErr} (h : e ≠ LockErr.errNotExist) :
    unlockIfHeld (some e) = some e := by
  cases e with
  | errExist => rfl
  | errNotExist => exact absurd rfl h
  | other msg => rfl

lemma reaperIteration_probe_err (env : ReaperEnv)
    (h : (etcdActive env.sys).err.isSome = true) :
    reaperIteration env =
      (ReaperStep.deferred DeferReason.probeError, false) := by
  simp [reaperIteration, h]

lemma reaperIteration_ok (env : ReaperEnv)
    (hp : (etcdActive env.sys).err = none)
    (hs : setupLock env.clientErr env.machineID = none) :
    reaperIteration env =
      (match unlockIfHeld env.unlockOutcome with
       | none => (ReaperStep.stop, true)
       | some e => (ReaperStep.deferred (DeferReason.unlockError e), true)) := by
  have hc : env.clientErr = none := setupLock_none_clientErr hs
  have hcond : ¬((etcdActive env.sys).active = false ∧
      env.clientErr.isSome = true) := by
    rintro ⟨-, habs⟩
    rw [hc] at habs
    cases habs
  rw [reaperIteration]
  rw [if_neg (by simp [hp]), if_neg hcond, hs]

/-- Claim C1 as stated is false at this input: the coordination-service
liveness check reports the service active with no probe error, yet the
reaper does not defer-and-retry — it constructs the lock handle,
attempts `release()` (second component `true`), and here even stops the
task because the release succeeded. -/
theorem C1_reaper_active_counterexample :
    (etcdActive envC1cex.sys).active = true ∧
    (etcdActive envC1cex.sys).err = none ∧
    reaperIteration envC1cex = (ReaperStep.stop, true) :=
  ⟨rfl, rfl, rfl⟩

/-- Claim C1, amended to match the code: a reaper iteration attempts
`release()` iff the probe returns no error and lock setup (etcd client
plus machine id) succeeds — in particular also when the service is
active; the iteration defers without attempting release exactly when
the probe errors, or the service is inactive with the remote store
unreachable, or lock setup fails. -/
theorem C1_reaper_active_release (env : ReaperEnv) :
    ((reaperIteration env).2 = true ↔
       (etcdActive env.sys).err = none ∧
       setupLock env.clientErr env.machineID = none) ∧
    ((etcdActive env.sys).err = none → (etcdActive env.sys).active = true →
       setupLock env.clientErr env.machineID = none →
       (reaperIteration env).2 = true) ∧
    ((etcdActive env.sys).err = none → (etcdActive env.sys).active = false →
       env.clientErr.isSome = true →
       reaperIteration env =
         (ReaperStep.deferred DeferReason.inactiveAndUnreachable, false)) := by
  refine ⟨?_, ?_, ?_⟩
  · constructor
    · intro hrel
      by_cases hp : (etcdActive env.sys).err = none
      · refine ⟨hp, ?_⟩
        by_cases hs : setupLock env.clientErr env.machineID = none
        · exact hs
        · exfalso
          obtain ⟨msg, hmsg⟩ := Option.ne_none_iff_exists'.mp hs
          rw [reaperIteration] at hrel
          rw [if_neg (by simp [hp])] at hrel
          by_cases hcond : (etcdActive env.sys).active = false ∧
              env.clientErr.isSome = true
          · rw [if_pos hcond] at hrel
            cases hrel
          · rw [if_neg hcond, hmsg] at hrel
            cases hrel
      · exfalso
        have hps : (etcdActive env.sys).err.isSome = true := by
          cases h : (etcdActive env.sys).err
          · exact absurd h hp
          · rfl
        rw [reaperIteration_probe_err env hps] at hrel
        cases hrel
    · rintro ⟨hp, hs⟩
      rw [reaperIteration_ok env hp hs]
      cases huo : unlockIfHeld env.unlockOutcome <;> rfl
  · intro hp _ hs
    rw [reaperIteration_ok env hp hs]
    cases huo : unlockIfHeld env.unlockOutcome <;> rfl
  · intro hp ha hc
    rw [reaperIteration]
    rw [if_neg (by simp [hp]), if_pos ⟨ha, hc⟩]

/-- Witness for the amended C1: the service is active, lock setup
succeeds, and the iteration indeed attempts a release. -/
theorem C1_reaper_active_release_witness :
    (reaperIteration envC1w).2 = true :=
  (C1_reaper_active_release envC1w).2.1 rfl rfl rfl

/-- Claim C6: once the reaper reaches a `release()` attempt, an outcome
of `NotHeld` or success terminates the task immediately — with no lock
held it stops on its very first `release()` attempt, performing exactly
one release attempt regardless of how many iterations were scheduled —
and any other release error records the reason, backs off and loops. -/
theorem C6_reaper_idempotent (env : ReaperEnv) (rest : List ReaperEnv)
    (i : Int)
    (hp : (etcdActive env.sys).err = none)
    (hs : setupLock env.clientErr env.machineID = none) :
    ((env.unlockOutcome = some LockErr.errNotExist ∨ env.unlockOutcome = none) →
       reaperLoop (env :: rest) i = (1, true)) ∧
    (∀ e, env.unlockOutcome = some e → e ≠ LockErr.errNotExist →
       reaperIteration env =
         (ReaperStep.deferred (DeferReason.unlockError e), true) ∧
       reaperLoop (env :: rest) i =
         (1 + (reaperLoop rest (expBackoff i)).1,
          (reaperLoop rest (expBackoff i)).2)) := by
  constructor
  · intro ho
    have hnone : unlockIfHeld env.unlockOutcome = none := by
      rcases ho with h | h <;> rw [h] <;> rfl
    have hiter : reaperIteration env = (ReaperStep.stop, true) := by
      rw [reaperIteration_ok env hp hs, hnone]
    simp [reaperLoop, hiter]
  · intro e ho hne
    have hiter : reaperIteration env =
        (ReaperStep.deferred (DeferReason.unlockError e), true) := by
      rw [reaperIteration_ok env hp hs, ho, unlockIfHeld_some hne]
    refine ⟨hiter, ?_⟩
    simp [reaperLoop, hiter]

/-- Witness for C6: with no lock held (`NotHeld` on release), the loop
terminates after exactly one release attempt whatever else was
scheduled. -/
theorem C6_reaper_idempotent_witness :
    reaperLoop [envC6w, envC6w] initialInterval = (1, true) :=
  (C6_reaper_idempotent envC6w [envC6w] initialInterval rfl rfl).1
    (Or.inl rfl)

lemma reboot_locked_trace (strategy : String) (env : RebootEnv)
    (hu : useLock strategy env.sys = (true, none))
    (hsetup : setupLock env.clientErr env.machineID = none)
    (hpre : unlockIfHeld env.preUnlockOutcome = none)
    (hacq : (lockAndReboot env.lines env.acquireOutcomes initialInterval).2 =
      true) :
    reboot strategy env =
      ((lockAndReboot env.lines env.acquireOutcomes initialInterval).1 ++
         rebootAndSleep env.lines ++ [Event.printRebootFailed], some 1) := by
  rw [reboot]
  simp only [hu, hsetup, hpre, hacq, if_true, if_pos]

/-- Claim C9: when `useLock()` returns true and the locking loop
eventually acquires the lock (success or `AlreadyHeld`), the executor
performs the notify/delay/reboot/long-sleep sequence twice — once
inside the loop and once after it returns — so two reboot requests are
issued before the failure message is printed and exit status 1 is
returned. -/
theorem C9_double_reboot (strategy : String) (env : RebootEnv)
    (hu : useLock strategy env.sys = (true, none))
    (hsetup : setupLock env.clientErr env.machineID = none)
    (hpre : unlockIfHeld env.preUnlockOutcome = none)
    (hacq : (lockAndReboot env.lines env.acquireOutcomes initialInterval).2 =
      true) :
    (reboot strategy env).2 = some 1 ∧
    countEvent Event.rebootCall (reboot strategy env).1 = 2 ∧
    ∃ t, (reboot strategy env).1 = t ++ [Event.printRebootFailed] ∧
      countEvent Event.rebootCall t = 2 := by
  rw [reboot_locked_trace strategy env hu hsetup hpre hacq]
  have hc : countEvent Event.rebootCall
      ((lockAndReboot env.lines env.acquireOutcomes initialInterval).1 ++
        rebootAndSleep env.lines) = 2 := by
    rw [countEvent_append,
      lockAndReboot_count_reboot env.lines env.acquireOutcomes
        initialInterval hacq,
      rebootAndSleep_count_reboot]
  refine ⟨rfl, ?_, ?_⟩
  · show countEvent Event.rebootCall
      (((lockAndReboot env.lines env.acquireOutcomes initialInterval).1 ++
        rebootAndSleep env.lines) ++ [Event.printRebootFailed]) = 2
    rw [countEvent_append, hc]
    rfl
  · exact ⟨(lockAndReboot env.lines env.acquireOutcomes initialInterval).1 ++
      rebootAndSleep env.lines, rfl, hc⟩

/-- Witness for C9: etcd-lock strategy, first acquire succeeds, no
terminal lines reached — the trace still carries two reboot requests
and ends in the failure print with exit status 1. -/
theorem C9_double_reboot_witness :
    (reboot StrategyEtcdLock envC9w).2 = some 1 ∧
    countEvent Event.rebootCall (reboot StrategyEtcdLock envC9w).1 = 2 ∧
    ∃ t, (reboot StrategyEtcdLock envC9w).1 = t ++ [Event.printRebootFailed] ∧
      countEvent Event.rebootCall t = 2 :=
  C9_double_reboot StrategyEtcdLock envC9w rfl rfl rfl rfl

/-- Claim C8 as stated is false at this input: with `REBOOT_STRATEGY`
set to `off` and only `REBOOT_WINDOW_START` set (a window configuration
with exactly one variable set), the daemon exits with status 0, not 1 —
the strategy check precedes the window-configuration check. -/
theorem C8_window_config_counterexample :
    ((envC8cex.startw == "") != (envC8cex.lengthw == "")) = true ∧
    runDaemon envC8cex = ([], DaemonOutcome.exit 0) :=
  ⟨rfl, rfl⟩

/-- Claim C8, amended: for every environment whose effective strategy
is not `off`, setting exactly one of the two reboot-window variables,
or setting both with an unparsable window, makes the daemon exit with
status 1 without connecting to any collaborator; when neither is set
(and startup succeeds) the daemon proceeds with no window
restriction. -/
theorem C8_window_config (env : DaemonEnv)
    (hs : effectiveStrategy env ≠ StrategyOff) :
    (((env.startw == "") != (env.lengthw == "")) = true →
       runDaemon env = ([], DaemonOutcome.exit 1)) ∧
    (env.startw ≠ "" → env.lengthw ≠ "" → env.parseOk = false →
       runDaemon env = ([], DaemonOutcome.exit 1)) ∧
    (env.startw = "" → env.lengthw = "" →
       ∀ (p : Bool) (s : String),
         (runDaemon env).2 = DaemonOutcome.proceed p s → p = false) := by
  refine ⟨?_, ?_, ?_⟩
  · intro hx
    rw [runDaemon, if_neg hs, if_pos hx]
  · intro h1 h2 h3
    simp [runDaemon, hs, h1, h2, h3]
  · intro h1 h2 p s hp
    cases hue : env.ueConnOk <;> cases hlgn : env.lgnConnOk <;>
      cases hst : env.statusOk <;>
      simp [runDaemon, hs, h1, h2, hue, hlgn, hst] at hp
    all_goals simp [hp]

/-- Witness for the amended C8: default strategy with only
`REBOOT_WINDOW_START` set exits 1 with no collaborator connection. -/
theorem C8_window_config_witness :
    runDaemon envC8w = ([], DaemonOutcome.exit 1) :=
  (C8_window_config envC8w (by decide)).1 (by decide)

end Locksmith
